import Mathlib

set_option linter.unusedVariables false

/-!
Verification development for the StoaCEF bridge
(`Sources/StoaCEF/include/cef_bridge.h`).

The repository declares a C-linkage surface over an embedded browser
engine: process lifecycle (`stoa_cef_initialize`, `stoa_cef_shutdown`,
`stoa_cef_do_message_loop_work`), browser instance management
(`stoa_cef_browser_create`, `stoa_cef_browser_destroy`, resize, load,
scale, focus), input injection, and a paint callback.  The header fixes
enumerations, parameter types and orders; the implementation behind the
declarations is modelled from the specification where noted.

Modelling conventions: C `int` is `Int`, C `uint32_t` values are `Nat`,
pointers (`void*`, function pointers identified by address) are `Nat`
addresses, the null browser handle is `Option.none`, and the byte buffer
behind the paint callback's `const void*` is the list of bytes it points
to.
-/

/-- Embedded from cef_bridge.h: `enum stoa_cef_key_event_type` with
enumerators RAW_DOWN, DOWN, UP, CHAR. -/
inductive stoa_cef_key_event_type
  | STOA_CEF_KEY_RAW_DOWN
  | STOA_CEF_KEY_DOWN
  | STOA_CEF_KEY_UP
  | STOA_CEF_KEY_CHAR
deriving DecidableEq

/-- Embedded from cef_bridge.h: the integer value assigned to each
enumerator of `stoa_cef_key_event_type` (`= 0`, `= 1`, `= 2`, `= 3`). -/
def stoa_cef_key_event_type.val : stoa_cef_key_event_type → Int
  | .STOA_CEF_KEY_RAW_DOWN => 0
  | .STOA_CEF_KEY_DOWN => 1
  | .STOA_CEF_KEY_UP => 2
  | .STOA_CEF_KEY_CHAR => 3

/-- Embedded from cef_bridge.h: `enum stoa_cef_mouse_button` with
enumerators LEFT, MIDDLE, RIGHT. -/
inductive stoa_cef_mouse_button
  | STOA_CEF_MOUSE_LEFT
  | STOA_CEF_MOUSE_MIDDLE
  | STOA_CEF_MOUSE_RIGHT
deriving DecidableEq

/-- Embedded from cef_bridge.h: the integer value assigned to each
enumerator of `stoa_cef_mouse_button` (`= 0`, `= 1`, `= 2`). -/
def stoa_cef_mouse_button.val : stoa_cef_mouse_button → Int
  | .STOA_CEF_MOUSE_LEFT => 0
  | .STOA_CEF_MOUSE_MIDDLE => 1
  | .STOA_CEF_MOUSE_RIGHT => 2

/-- Embedded from cef_bridge.h:
`typedef void (*stoa_cef_paint_callback)(void* user_data, int width,
int height, const void* buffer, int buffer_length)`.
The `void* user_data` is a `Nat` address, the two `int` dimensions are
`Int`, the `const void* buffer` is modelled by the byte array it points
to, and `int buffer_length` is `Int`.  The host-side effect of the call
(C return type `void`) is abstracted by the result type `α`. -/
def stoa_cef_paint_callback (α : Type) : Type :=
  Nat → Int → Int → List (Fin 256) → Int → α

/-- Modelled from the spec: one rendered frame delivered by the engine to
a paint callback (the engine side that produces frames is not under
`src/`, only the callback typedef is).  Per the spec's callback contract
the buffer is a packed pixel array sized `buffer_length` bytes. -/
structure PaintFrame where
  width : Int
  height : Int
  buffer : List (Fin 256)
deriving DecidableEq

/-- Modelled from the spec: the `buffer_length` argument accompanying a
frame's buffer is the buffer's size in bytes. -/
def PaintFrame.buffer_length (f : PaintFrame) : Int :=
  (f.buffer.length : Int)

/-- Modelled from the spec: how the engine invokes a registered paint
callback for a frame (the invoking engine code is not under `src/`):
it supplies `user_data`, `width`, `height`, `buffer`, `buffer_length`,
in this order. -/
def invokePaint {α : Type} (cb : stoa_cef_paint_callback α)
    (user_data : Nat) (f : PaintFrame) : α :=
  cb user_data f.width f.height f.buffer f.buffer_length

/-- Modelled from the spec: one live browser instance held by the bridge
(the `struct stoa_cef_browser` behind the opaque handle is not under
`src/`).  It records the handle identity, the current render-target
dimensions, and the user-data pointer and paint callback registered at
creation time. -/
structure Browser where
  handle : Nat
  width : Int
  height : Int
  user_data : Nat
  paint_cb : Nat
deriving DecidableEq

/-- Modelled from the spec: a single input event as delivered to the
engine by the injection calls (the delivering implementation is not
under `src/`).  Field types follow the declared C parameter types:
`type`, `modifiers`, coordinates, `button`, deltas and `click_count`
are C `int` (`Int`); the three `uint32_t` key fields are `Nat`;
`mouse_leave` / `mouse_up` are C `bool`. -/
inductive InputEvent
  | key (browser : Nat) (type modifiers : Int)
      (character unmodified_character native_key_code : Nat)
  | mouseMove (browser : Nat) (x y modifiers : Int) (mouse_leave : Bool)
  | mouseClick (browser : Nat) (x y modifiers button : Int)
      (mouse_up : Bool) (click_count : Int)
  | mouseWheel (browser : Nat) (x y modifiers delta_x delta_y : Int)
deriving DecidableEq

/-- Modelled from the spec: the process-wide state of the bridge (the
`.cpp` implementation of the declared functions is not under `src/`).
`initialized` tracks the one-time engine setup, `nextHandle` is the
fresh-handle allocator (0 is reserved for the null handle), `browsers`
are the live instances, `created` records every handle ever returned by
`stoa_cef_browser_create`, `destroyedHandles` every handle passed to
`stoa_cef_browser_destroy`, and `engineQueue` the input events the
engine has consumed. -/
structure BridgeState where
  initialized : Bool
  nextHandle : Nat
  browsers : List Browser
  created : List Nat
  destroyedHandles : List Nat
  engineQueue : List InputEvent

/-- Modelled from the spec: the bridge state before any call. -/
def initialState : BridgeState :=
  { initialized := false
    nextHandle := 1
    browsers := []
    created := []
    destroyedHandles := []
    engineQueue := [] }

/-- The handles of the currently live browser instances. -/
def liveHandles (s : BridgeState) : List Nat :=
  s.browsers.map Browser.handle

/-- Modelled from the spec: the engine-side conditions that decide
whether process-wide setup can succeed — the spec names missing
framework resources as one failure cause, other engine-internal startup
failures are abstracted by a second flag. -/
structure EngineInit where
  frameworkResourcesPresent : Bool
  otherStartupOk : Bool

/-- Modelled from the spec: the engine can start iff its framework
resources are present and no other startup failure occurs. -/
def EngineInit.canStart (eng : EngineInit) : Bool :=
  eng.frameworkResourcesPresent && eng.otherStartupOk

/-- Modelled from the spec: `stoa_cef_initialize(argc, argv,
framework_path, resources_path, locales_path, cache_path,
remote_debugging_port) -> bool` — one-time process-wide setup; returns
`true` on success and `false` when the engine cannot start, and a failed
call leaves the bridge unchanged (the boolean is the only error
channel).  The implementation is not under `src/`; `eng` abstracts the
wrapped engine's startup outcome. -/
def stoa_cef_initialize (eng : EngineInit) (s : BridgeState)
    (argc : Int) (argv : List String)
    (framework_path resources_path locales_path cache_path : String)
    (remote_debugging_port : Int) : BridgeState × Bool :=
  if eng.canStart then ({ s with initialized := true }, true)
  else (s, false)

/-- Modelled from the spec: `stoa_cef_shutdown()` tears down
process-wide state (to be called only once all browsers are
destroyed). -/
def stoa_cef_shutdown (s : BridgeState) : BridgeState :=
  { s with initialized := false }

/-- Modelled from the spec: `stoa_cef_do_message_loop_work()` pumps the
engine's internal event loop once; no bridge-visible state change. -/
def stoa_cef_do_message_loop_work (s : BridgeState) : BridgeState :=
  s

/-- Modelled from the spec: how the engine treats a zero or negative
requested width/height in `browser_create` — the spec leaves the choice
to the implementation: either fail gracefully or clamp the dimensions to
a minimum. -/
inductive SizeBehavior
  | fail
  | clamp (minWidth minHeight : Int)
deriving DecidableEq

/-- Modelled from the spec: the engine-side conditions governing one
`browser_create` call — whether the engine can allocate a browser at
all, and its pinned behavior for non-positive dimensions. -/
structure EngineCreate where
  canAllocate : Bool
  sizeBehavior : SizeBehavior
deriving DecidableEq

/-- Modelled from the spec: successful allocation inside
`browser_create`: a fresh handle is drawn from `nextHandle`, the new
instance is registered with its dimensions, user data and paint
callback, and the handle is returned. -/
def allocateBrowser (s : BridgeState) (width height : Int)
    (user_data paint_cb : Nat) : BridgeState × Option Nat :=
  let h := s.nextHandle
  ({ s with
      nextHandle := h + 1
      browsers := ⟨h, width, height, user_data, paint_cb⟩ :: s.browsers
      created := h :: s.created }, some h)

/-- Modelled from the spec: `stoa_cef_browser_create(url, width, height,
parent_view, device_scale_factor, user_data, paint_cb) -> handle` —
allocates a new browser and registers the paint callback, returning the
null-equivalent handle (`none`) if the engine cannot allocate one; with
a zero or negative width/height it follows the engine's pinned size
behavior (fail gracefully, or clamp to the minimum).  The implementation
is not under `src/`; `eng` abstracts the wrapped engine's outcome. -/
def stoa_cef_browser_create (eng : EngineCreate) (s : BridgeState)
    (url : String) (width height : Int) (parent_view : Nat)
    (device_scale_factor : Float) (user_data : Nat) (paint_cb : Nat) :
    BridgeState × Option Nat :=
  if eng.canAllocate then
    if width ≤ 0 ∨ height ≤ 0 then
      match eng.sizeBehavior with
      | .fail => (s, none)
      | .clamp minW minH =>
          allocateBrowser s (max width minW) (max height minH)
            user_data paint_cb
    else
      allocateBrowser s width height user_data paint_cb
  else (s, none)

/-- Modelled from the spec: the engine cannot allocate a browser for
this call — either allocation fails outright, or the requested
dimensions are non-positive and the engine's pinned size behavior is to
fail gracefully. -/
def engineCannotAllocate (eng : EngineCreate) (width height : Int) : Prop :=
  eng.canAllocate = false ∨
    ((width ≤ 0 ∨ height ≤ 0) ∧ eng.sizeBehavior = .fail)

/-- Modelled from the spec: `stoa_cef_browser_destroy(browser)` releases
the engine resources of the instance; the handle leaves the live set and
is recorded as destroyed. -/
def stoa_cef_browser_destroy (s : BridgeState) (browser : Nat) :
    BridgeState :=
  { s with
      browsers := s.browsers.filter (fun b => b.handle != browser)
      destroyedHandles := browser :: s.destroyedHandles }

/-- Modelled from the spec: `stoa_cef_browser_resize(browser, width,
height)` mutates the render-target dimensions of the instance. -/
def stoa_cef_browser_resize (s : BridgeState) (browser : Nat)
    (width height : Int) : BridgeState :=
  { s with
      browsers := s.browsers.map (fun b =>
        if b.handle = browser then { b with width := width, height := height }
        else b) }

/-- Modelled from the spec: `stoa_cef_browser_load_url(browser, url)`
begins a navigation inside the engine; nothing bridge-visible changes
(completion is observed only through future paint callbacks). -/
def stoa_cef_browser_load_url (s : BridgeState) (browser : Nat)
    (url : String) : BridgeState :=
  s

/-- Modelled from the spec: `stoa_cef_browser_set_device_scale(browser,
device_scale_factor)` adjusts DPI inside the engine; nothing
bridge-visible changes. -/
def stoa_cef_browser_set_device_scale (s : BridgeState) (browser : Nat)
    (device_scale_factor : Float) : BridgeState :=
  s

/-- Modelled from the spec: `stoa_cef_browser_set_focus(browser, focus)`
toggles engine-internal input routing; nothing bridge-visible
changes. -/
def stoa_cef_browser_set_focus (s : BridgeState) (browser : Nat)
    (focus : Bool) : BridgeState :=
  s

/-- Modelled from the spec: `stoa_cef_browser_send_key_event(browser,
type, modifiers, character, unmodified_character, native_key_code)` —
fire-and-forget delivery of one key event.  `engineConsumes` abstracts
whether the wrapped engine consumes or drops the event (its
implementation is not under `src/`); the C return type `void` is
`Unit`.  The declared `type` parameter is a plain C `int`, so any
integer is accepted and passed through unchecked. -/
def stoa_cef_browser_send_key_event (engineConsumes : Bool)
    (s : BridgeState) (browser : Nat) (type modifiers : Int)
    (character unmodified_character native_key_code : Nat) :
    BridgeState × Unit :=
  (if engineConsumes then
    { s with engineQueue := s.engineQueue ++
        [.key browser type modifiers character unmodified_character
          native_key_code] }
  else s, ())

/-- Modelled from the spec: `stoa_cef_browser_send_mouse_move(browser,
x, y, modifiers, mouse_leave)` — fire-and-forget cursor report. -/
def stoa_cef_browser_send_mouse_move (engineConsumes : Bool)
    (s : BridgeState) (browser : Nat) (x y modifiers : Int)
    (mouse_leave : Bool) : BridgeState × Unit :=
  (if engineConsumes then
    { s with engineQueue := s.engineQueue ++
        [.mouseMove browser x y modifiers mouse_leave] }
  else s, ())

/-- Modelled from the spec: `stoa_cef_browser_send_mouse_click(browser,
x, y, modifiers, button, mouse_up, click_count)` — fire-and-forget click
report.  The declared `button` parameter is a plain C `int`, so any
integer is accepted and passed through unchecked. -/
def stoa_cef_browser_send_mouse_click (engineConsumes : Bool)
    (s : BridgeState) (browser : Nat) (x y modifiers button : Int)
    (mouse_up : Bool) (click_count : Int) : BridgeState × Unit :=
  (if engineConsumes then
    { s with engineQueue := s.engineQueue ++
        [.mouseClick browser x y modifiers button mouse_up click_count] }
  else s, ())

/-- Modelled from the spec: `stoa_cef_browser_send_mouse_wheel(browser,
x, y, modifiers, delta_x, delta_y)` — fire-and-forget scroll report. -/
def stoa_cef_browser_send_mouse_wheel (engineConsumes : Bool)
    (s : BridgeState) (browser : Nat) (x y modifiers delta_x delta_y : Int) :
    BridgeState × Unit :=
  (if engineConsumes then
    { s with engineQueue := s.engineQueue ++
        [.mouseWheel browser x y modifiers delta_x delta_y] }
  else s, ())

/-- Modelled from the spec: the label of one observable step of the
bridge — a host call through the declared C surface, or an engine-side
paint delivery for a browser (`paintEvt`). -/
inductive BridgeCall
  | initCall (eng : EngineInit) (argc : Int) (argv : List String)
      (framework_path resources_path locales_path cache_path : String)
      (remote_debugging_port : Int)
  | execProcessCall (argc : Int) (argv : List String)
  | shutdownCall
  | loopWorkCall
  | createCall (eng : EngineCreate) (url : String) (width height : Int)
      (parent_view : Nat) (device_scale_factor : Float)
      (user_data : Nat) (paint_cb : Nat)
  | destroyCall (browser : Nat)
  | resizeCall (browser : Nat) (width height : Int)
  | loadUrlCall (browser : Nat) (url : String)
  | setScaleCall (browser : Nat) (device_scale_factor : Float)
  | setFocusCall (browser : Nat) (focus : Bool)
  | keyCall (engineConsumes : Bool) (browser : Nat) (type modifiers : Int)
      (character unmodified_character native_key_code : Nat)
  | mouseMoveCall (engineConsumes : Bool) (browser : Nat)
      (x y modifiers : Int) (mouse_leave : Bool)
  | mouseClickCall (engineConsumes : Bool) (browser : Nat)
      (x y modifiers button : Int) (mouse_up : Bool) (click_count : Int)
  | mouseWheelCall (engineConsumes : Bool) (browser : Nat)
      (x y modifiers delta_x delta_y : Int)
  | paintEvt (browser : Nat) (frame : PaintFrame)

/-- Whether a step label is a `stoa_cef_initialize` call. -/
def isInitCall : BridgeCall → Prop
  | .initCall _ _ _ _ _ _ _ _ => True
  | _ => False

/-- Whether a step label is a `stoa_cef_browser_create` call. -/
def isCreateCall : BridgeCall → Prop
  | .createCall _ _ _ _ _ _ _ _ => True
  | _ => False

/-- Modelled from the spec: the legal transitions of the bridge.  The
preconditions encode the spec's usage contract: `initialize` is the
one-time setup and must precede browser creation; `shutdown` requires
every browser destroyed (undefined behavior otherwise, so no legal step
exists); handle-consuming calls require a live handle (a handle must not
be used after `browser_destroy`); the engine delivers a paint event only
for a browser whose callback is registered, i.e. a live one. -/
inductive Step : BridgeState → BridgeCall → BridgeState → Prop
  | init {s eng argc argv fp rp lp cp port} :
      s.initialized = false →
      Step s (.initCall eng argc argv fp rp lp cp port)
        ( stoa_cef_initialize eng s argc argv fp rp lp cp port).1
  | execProcess {s argc argv} :
      Step s (.execProcessCall argc argv) s
  | shutdown {s} :
      s.initialized = true →
      s.browsers = [] →
      Step s .shutdownCall (stoa_cef_shutdown s)
  | loopWork {s} :
      Step s .loopWorkCall (stoa_cef_do_message_loop_work s)
  | create {s eng url width height pv dsf ud cb} :
      s.initialized = true →
      Step s (.createCall eng url width height pv dsf ud cb)
        (stoa_cef_browser_create eng s url width height pv dsf ud cb).1
  | destroy {s browser} :
      browser ∈ liveHandles s →
      Step s (.destroyCall browser) (stoa_cef_browser_destroy s browser)
  | resize {s browser width height} :
      browser ∈ liveHandles s →
      Step s (.resizeCall browser width height)
        (stoa_cef_browser_resize s browser width height)
  | loadUrl {s browser url} :
      browser ∈ liveHandles s →
      Step s (.loadUrlCall browser url)
        (stoa_cef_browser_load_url s browser url)
  | setScale {s browser dsf} :
      browser ∈ liveHandles s →
      Step s (.setScaleCall browser dsf)
        (stoa_cef_browser_set_device_scale s browser dsf)
  | setFocus {s browser focus} :
      browser ∈ liveHandles s →
      Step s (.setFocusCall browser focus)
        (stoa_cef_browser_set_focus s browser focus)
  | key {s ec browser type modifiers ch uch nkc} :
      browser ∈ liveHandles s →
      Step s (.keyCall ec browser type modifiers ch uch nkc)
        (stoa_cef_browser_send_key_event ec s browser type modifiers ch
          uch nkc).1
  | mouseMove {s ec browser x y modifiers leave} :
      browser ∈ liveHandles s →
      Step s (.mouseMoveCall ec browser x y modifiers leave)
        (stoa_cef_browser_send_mouse_move ec s browser x y modifiers
          leave).1
  | mouseClick {s ec browser x y modifiers button up cc} :
      browser ∈ liveHandles s →
      Step s (.mouseClickCall ec browser x y modifiers button up cc)
        (stoa_cef_browser_send_mouse_click ec s browser x y modifiers
          button up cc).1
  | mouseWheel {s ec browser x y modifiers dx dy} :
      browser ∈ liveHandles s →
      Step s (.mouseWheelCall ec browser x y modifiers dx dy)
        (stoa_cef_browser_send_mouse_wheel ec s browser x y modifiers dx
          dy).1
  | paint {s browser frame} :
      browser ∈ liveHandles s →
      Step s (.paintEvt browser frame) s

/-- A finite execution of the bridge: a list of steps from one state to
another. -/
inductive Trace : BridgeState → List BridgeCall → BridgeState → Prop
  | nil {s} : Trace s [] s
  | cons {s e s' es s''} : Step s e s' → Trace s' es s'' →
      Trace s (e :: es) s''

/-- The structural invariant of the bridge state: live handles and
destroyed handles are below the fresh-handle allocator, no destroyed
handle is live, and every live handle was returned by
`stoa_cef_browser_create`. -/
def Wf (s : BridgeState) : Prop :=
  (∀ b ∈ s.browsers, b.handle < s.nextHandle) ∧
  (∀ d ∈ s.destroyedHandles, d < s.nextHandle) ∧
  (∀ d ∈ s.destroyedHandles, d ∉ liveHandles s) ∧
  (∀ b ∈ s.browsers, b.handle ∈ s.created)

lemma wf_of_eq_fields {s s' : BridgeState}
    (hb : s'.browsers = s.browsers) (hn : s'.nextHandle = s.nextHandle)
    (hd : s'.destroyedHandles = s.destroyedHandles)
    (hc : s'.created = s.created) (hwf : Wf s) : Wf s' := by
  unfold Wf liveHandles at *
  rw [hb, hn, hd, hc]
  exact hwf

lemma wf_allocate {s : BridgeState} (hwf : Wf s) (width height : Int)
    (user_data paint_cb : Nat) :
    Wf (allocateBrowser s width height user_data paint_cb).1 := by
  obtain ⟨h1, h2, h3, h4⟩ := hwf
  refine ⟨?_, ?_, ?_, ?_⟩
  · intro b hb
    rcases List.mem_cons.mp hb with rfl | hb
    · exact Nat.lt_succ_self _
    · exact Nat.lt_succ_of_lt (h1 b hb)
  · intro d hd
    exact Nat.lt_succ_of_lt (h2 d hd)
  · intro d hd
    have hdlt : d < s.nextHandle := h2 d hd
    simp only [allocateBrowser, liveHandles, List.map_cons, List.mem_cons]
    push_neg
    exact ⟨Nat.ne_of_lt hdlt, h3 d hd⟩
  · intro b hb
    rcases List.mem_cons.mp hb with rfl | hb
    · exact List.mem_cons_self _ _
    · exact List.mem_cons_of_mem _ (h4 b hb)

lemma wf_step {s e s'} (hstep : Step s e s') (hwf : Wf s) : Wf s' := by
  cases hstep with
  | @init eng argc argv fp rp lp cp port hinit =>
      refine wf_of_eq_fields ?_ ?_ ?_ ?_ hwf <;>
        by_cases hc : eng.canStart = true <;>
        simp [ stoa_cef_initialize, hc]
  | execProcess => exact hwf
  | shutdown h1 h2 => exact wf_of_eq_fields rfl rfl rfl rfl hwf
  | loopWork => exact hwf
  | @create eng url width height pv dsf ud cb hinit =>
      unfold stoa_cef_browser_create
      split
      · split
        · split
          · exact hwf
          · exact wf_allocate hwf _ _ _ _
        · exact wf_allocate hwf _ _ _ _
      · exact hwf
  | @destroy browser hmem =>
      obtain ⟨h1, h2, h3, h4⟩ := hwf
      refine ⟨?_, ?_, ?_, ?_⟩
      · intro b hb
        exact h1 b (List.mem_of_mem_filter hb)
      · intro d hd
        rcases List.mem_cons.mp hd with rfl | hd
        · obtain ⟨b, hb, hbh⟩ := List.mem_map.mp hmem
          rw [← hbh]
          exact h1 b hb
        · exact h2 d hd
      · intro d hd
        rcases List.mem_cons.mp hd with rfl | hd
        · intro hmem'
          obtain ⟨b, hbf, hbh⟩ := List.mem_map.mp hmem'
          have hpb := (List.mem_filter.mp hbf).2
          rw [bne_iff_ne] at hpb
          exact hpb hbh
        · intro hmem'
          obtain ⟨b, hbf, hbh⟩ := List.mem_map.mp hmem'
          exact h3 d hd (List.mem_map.mpr ⟨b, List.mem_of_mem_filter hbf, hbh⟩)
      · intro b hb
        exact h4 b (List.mem_of_mem_filter hb)
  | @resize browser width height hmem =>
      obtain ⟨h1, h2, h3, h4⟩ := hwf
      have hf : ∀ b : Browser,
          (if b.handle = browser
            then { b with width := width, height := height } else b).handle
            = b.handle := by
        intro b
        by_cases hbb : b.handle = browser <;> simp [hbb]
      refine ⟨?_, ?_, ?_, ?_⟩
      · intro b' hb'
        obtain ⟨b, hb, rfl⟩ := List.mem_map.mp hb'
        rw [hf b]
        exact h1 b hb
      · intro d hd
        exact h2 d hd
      · intro d hd hmem'
        obtain ⟨b', hb', hbh⟩ := List.mem_map.mp hmem'
        obtain ⟨b, hb, rfl⟩ := List.mem_map.mp hb'
        refine h3 d hd (List.mem_map.mpr ⟨b, hb, ?_⟩)
        rw [← hbh, hf b]
      · intro b' hb'
        obtain ⟨b, hb, rfl⟩ := List.mem_map.mp hb'
        rw [hf b]
        exact h4 b hb
  | loadUrl hmem => exact hwf
  | setScale hmem => exact hwf
  | setFocus hmem => exact hwf
  | @key ec browser type modifiers ch uch nkc hmem =>
      refine wf_of_eq_fields ?_ ?_ ?_ ?_ hwf <;>
        by_cases hec : ec = true <;>
        simp [ stoa_cef_browser_send_key_event, hec]
  | @mouseMove ec browser x y modifiers leave hmem =>
      refine wf_of_eq_fields ?_ ?_ ?_ ?_ hwf <;>
        by_cases hec : ec = true <;>
        simp [ stoa_cef_browser_send_mouse_move, hec]
  | @mouseClick ec browser x y modifiers button up cc hmem =>
      refine wf_of_eq_fields ?_ ?_ ?_ ?_ hwf <;>
        by_cases hec : ec = true <;>
        simp [ stoa_cef_browser_send_mouse_click, hec]
  | @mouseWheel ec browser x y modifiers dx dy hmem =>
      refine wf_of_eq_fields ?_ ?_ ?_ ?_ hwf <;>
        by_cases hec : ec = true <;>
        simp [ stoa_cef_browser_send_mouse_wheel, hec]
  | paint hmem => exact hwf

lemma destroyed_mono {s e s' d} (hstep : Step s e s')
    (hd : d ∈ s.destroyedHandles) : d ∈ s'.destroyedHandles := by
  cases hstep with
  | @init eng argc argv fp rp lp cp port hinit =>
      by_cases hc : eng.canStart = true <;>
        simpa [ stoa_cef_initialize, hc] using hd
  | execProcess => exact hd
  | shutdown h1 h2 => exact hd
  | loopWork => exact hd
  | @create eng url width height pv dsf ud cb hinit =>
      unfold stoa_cef_browser_create
      split
      · split
        · split
          · exact hd
          · exact hd
        · exact hd
      · exact hd
  | @destroy browser hmem => exact List.mem_cons_of_mem _ hd
  | resize hmem => exact hd
  | loadUrl hmem => exact hd
  | setScale hmem => exact hd
  | setFocus hmem => exact hd
  | @key ec browser type modifiers ch uch nkc hmem =>
      by_cases hec : ec = true <;>
        simpa [ stoa_cef_browser_send_key_event, hec] using hd
  | @mouseMove ec browser x y modifiers leave hmem =>
      by_cases hec : ec = true <;>
        simpa [ stoa_cef_browser_send_mouse_move, hec] using hd
  | @mouseClick ec browser x y modifiers button up cc hmem =>
      by_cases hec : ec = true <;>
        simpa [ stoa_cef_browser_send_mouse_click, hec] using hd
  | @mouseWheel ec browser x y modifiers dx dy hmem =>
      by_cases hec : ec = true <;>
        simpa [ stoa_cef_browser_send_mouse_wheel, hec] using hd
  | paint hmem => exact hd

lemma wf_trace {s es s'} (htr : Trace s es s') (hwf : Wf s) : Wf s' := by
  induction htr with
  | nil => exact hwf
  | cons hstep htr ih => exact ih (wf_step hstep hwf)

lemma wf_initial : Wf initialState := by
  refine ⟨?_, ?_, ?_, ?_⟩ <;> intro x hx <;> simp [initialState] at hx

lemma trace_append_split {s sf : BridgeState} {e : BridgeCall} :
    ∀ pre post, Trace s (pre ++ e :: post) sf →
    ∃ s1 s2, Trace s pre s1 ∧ Step s1 e s2 ∧ Trace s2 post sf := by
  intro pre
  induction pre generalizing s with
  | nil =>
      intro post htr
      cases htr with
      | cons hstep htr' => exact ⟨s, _, .nil, hstep, htr'⟩
  | cons a pre ih =>
      intro post htr
      cases htr with
      | cons hstep htr' =>
          obtain ⟨s1, s2, h1, h2, h3⟩ := ih post htr'
          exact ⟨s1, s2, .cons hstep h1, h2, h3⟩

lemma no_paint_after_destroyed {s post sf} (htr : Trace s post sf) :
    Wf s → ∀ h : Nat, h ∈ s.destroyedHandles →
    ∀ frame, BridgeCall.paintEvt h frame ∉ post := by
  induction htr with
  | nil =>
      intro hwf h hd frame hmem
      exact absurd hmem (List.not_mem_nil _)
  | @cons s e s' es s'' hstep htr ih =>
      intro hwf h hd frame hmem
      rcases List.mem_cons.mp hmem with heq | hmem'
      · rw [← heq] at hstep
        cases hstep with
        | paint hlive => exact hwf.2.2.1 h hd hlive
      · exact ih (wf_step hstep hwf) h (destroyed_mono hstep hd) frame hmem'

lemma step_preserves_uninit {s e s'} (hstep : Step s e s')
    (hni : ¬ isInitCall e) (hf : s.initialized = false) :
    s'.initialized = false := by
  cases hstep with
  | init hinit => exact absurd trivial hni
  | execProcess => exact hf
  | shutdown h1 h2 => rw [h1] at hf; exact absurd hf (by simp)
  | loopWork => exact hf
  | create hinit => rw [hinit] at hf; exact absurd hf (by simp)
  | @destroy browser hmem => exact hf
  | resize hmem => exact hf
  | loadUrl hmem => exact hf
  | setScale hmem => exact hf
  | setFocus hmem => exact hf
  | @key ec browser type modifiers ch uch nkc hmem =>
      by_cases hec : ec = true <;>
        simpa [ stoa_cef_browser_send_key_event, hec] using hf
  | @mouseMove ec browser x y modifiers leave hmem =>
      by_cases hec : ec = true <;>
        simpa [ stoa_cef_browser_send_mouse_move, hec] using hf
  | @mouseClick ec browser x y modifiers button up cc hmem =>
      by_cases hec : ec = true <;>
        simpa [ stoa_cef_browser_send_mouse_click, hec] using hf
  | @mouseWheel ec browser x y modifiers dx dy hmem =>
      by_cases hec : ec = true <;>
        simpa [ stoa_cef_browser_send_mouse_wheel, hec] using hf
  | paint hmem => exact hf

lemma init_call_before_engaged {s pre s1} (htr : Trace s pre s1) :
    s.initialized = false → s1.initialized = true →
    ∃ e ∈ pre, isInitCall e := by
  induction htr with
  | nil =>
      intro h1 h2
      rw [h1] at h2
      exact absurd h2 (by simp)
  | @cons s e s' es s'' hstep htr ih =>
      intro h1 h2
      by_cases hi : isInitCall e
      · exact ⟨e, List.mem_cons_self _ _, hi⟩
      · obtain ⟨e', hmem, hie⟩ := ih (step_preserves_uninit hstep hi h1) h2
        exact ⟨e', List.mem_cons_of_mem _ hmem, hie⟩

/-- C6: the key-event type enumeration assigns exactly the values
raw-down = 0, down = 1, up = 2, char = 3, and the mouse-button
enumeration assigns exactly left = 0, middle = 1, right = 2 (every
enumerator's value is one of these). -/
theorem C6_enumeration_values :
    stoa_cef_key_event_type.STOA_CEF_KEY_RAW_DOWN.val = 0 ∧
    stoa_cef_key_event_type.STOA_CEF_KEY_DOWN.val = 1 ∧
    stoa_cef_key_event_type.STOA_CEF_KEY_UP.val = 2 ∧
    stoa_cef_key_event_type.STOA_CEF_KEY_CHAR.val = 3 ∧
    stoa_cef_mouse_button.STOA_CEF_MOUSE_LEFT.val = 0 ∧
    stoa_cef_mouse_button.STOA_CEF_MOUSE_MIDDLE.val = 1 ∧
    stoa_cef_mouse_button.STOA_CEF_MOUSE_RIGHT.val = 2 ∧
    (∀ e : stoa_cef_key_event_type,
      e.val = 0 ∨ e.val = 1 ∨ e.val = 2 ∨ e.val = 3) ∧
    (∀ b : stoa_cef_mouse_button, b.val = 0 ∨ b.val = 1 ∨ b.val = 2) := by
  refine ⟨rfl, rfl, rfl, rfl, rfl, rfl, rfl, ?_, ?_⟩
  · intro e
    cases e <;> simp [stoa_cef_key_event_type.val]
  · intro b
    cases b <;> simp [stoa_cef_mouse_button.val]

/-- C7: the paint callback has the signature
`paint_callback(user_data, width, height, buffer, buffer_length)`;
every invocation supplies exactly these five arguments in this order,
and the buffer argument is a pixel array of `buffer_length` bytes. -/
theorem C7_paint_callback_five_arguments :
    (∀ (α : Type) (cb : stoa_cef_paint_callback α) (user_data : Nat)
        (f : PaintFrame),
      invokePaint cb user_data f
        = cb user_data f.width f.height f.buffer f.buffer_length) ∧
    (∀ f : PaintFrame, f.buffer_length = (f.buffer.length : Int)) :=
  ⟨fun α cb user_data f => rfl, fun f => rfl⟩

/-- C5: every input-injection operation returns no value (`Unit`, the C
`void`): for every argument tuple the host-visible result is the unique
`Unit` value, and it is identical whether the engine consumes or drops
the event, so the host cannot observe the event's fate. -/
theorem C5_injection_returns_nothing :
    ∀ (s : BridgeState) (browser : Nat) (type modifiers : Int)
      (character unmodified_character native_key_code : Nat)
      (x y button delta_x delta_y click_count : Int)
      (mouse_leave mouse_up : Bool) (d1 d2 : Bool),
    (stoa_cef_browser_send_key_event d1 s browser type modifiers character
        unmodified_character native_key_code).2 = () ∧
    (stoa_cef_browser_send_key_event d1 s browser type modifiers character
        unmodified_character native_key_code).2
      = (stoa_cef_browser_send_key_event d2 s browser type modifiers
        character unmodified_character native_key_code).2 ∧
    (stoa_cef_browser_send_mouse_move d1 s browser x y modifiers
        mouse_leave).2 = () ∧
    (stoa_cef_browser_send_mouse_move d1 s browser x y modifiers
        mouse_leave).2
      = (stoa_cef_browser_send_mouse_move d2 s browser x y modifiers
        mouse_leave).2 ∧
    (stoa_cef_browser_send_mouse_click d1 s browser x y modifiers button
        mouse_up click_count).2 = () ∧
    (stoa_cef_browser_send_mouse_click d1 s browser x y modifiers button
        mouse_up click_count).2
      = (stoa_cef_browser_send_mouse_click d2 s browser x y modifiers
        button mouse_up click_count).2 ∧
    (stoa_cef_browser_send_mouse_wheel d1 s browser x y modifiers delta_x
        delta_y).2 = () ∧
    (stoa_cef_browser_send_mouse_wheel d1 s browser x y modifiers delta_x
        delta_y).2
      = (stoa_cef_browser_send_mouse_wheel d2 s browser x y modifiers
        delta_x delta_y).2 := by
  intros
  exact ⟨rfl, rfl, rfl, rfl, rfl, rfl, rfl, rfl⟩

/-- C9: the `type` parameter of the key-event call and the `button`
parameter of the mouse-click call are plain C `int` (`Int` here), so
every integer value is accepted and passed through to the engine
unchecked — while every enumerator of the two enumerations has a value
in `[0, 4)` resp. `[0, 3)`, so integers such as 4 resp. 3 lie outside
the enumerations yet are accepted. -/
theorem C9_plain_int_no_range_check :
    (∀ (s : BridgeState) (browser : Nat) (type modifiers : Int)
        (character unmodified_character native_key_code : Nat),
      (stoa_cef_browser_send_key_event true s browser type modifiers
          character unmodified_character native_key_code).1.engineQueue
        = s.engineQueue ++ [InputEvent.key browser type modifiers character
            unmodified_character native_key_code]) ∧
    (∀ (s : BridgeState) (browser : Nat) (x y modifiers button : Int)
        (mouse_up : Bool) (click_count : Int),
      (stoa_cef_browser_send_mouse_click true s browser x y modifiers
          button mouse_up click_count).1.engineQueue
        = s.engineQueue ++ [InputEvent.mouseClick browser x y modifiers
            button mouse_up click_count]) ∧
    (∀ e : stoa_cef_key_event_type, 0 ≤ e.val ∧ e.val < 4) ∧
    (∀ b : stoa_cef_mouse_button, 0 ≤ b.val ∧ b.val < 3) := by
  refine ⟨?_, ?_, ?_, ?_⟩
  · intros
    simp [ stoa_cef_browser_send_key_event]
  · intros
    simp [ stoa_cef_browser_send_mouse_click]
  · intro e
    cases e <;> simp [stoa_cef_key_event_type.val]
  · intro b
    cases b <;> simp [stoa_cef_mouse_button.val]

/-- C2: stoa_cef_initialize returns a boolean — `true` exactly when the
engine can start, `false` when it cannot (for example when the framework
resources are missing), and a failed call leaves the bridge state
untouched, so the boolean is the only error channel. -/
theorem C2_initialize_boolean_result :
    ∀ (eng : EngineInit) (s : BridgeState) (argc : Int)
      (argv : List String) (framework_path resources_path locales_path
      cache_path : String) (remote_debugging_port : Int) (ok : Bool),
    (( stoa_cef_initialize eng s argc argv framework_path resources_path
        locales_path cache_path remote_debugging_port).2 = eng.canStart) ∧
    (( stoa_cef_initialize ⟨false, ok⟩ s argc argv framework_path
        resources_path locales_path cache_path
        remote_debugging_port).2 = false) ∧
    (( stoa_cef_initialize eng s argc argv framework_path resources_path
        locales_path cache_path remote_debugging_port).1
      = if eng.canStart then { s with initialized := true } else s) := by
  intro eng s argc argv fp rp lp cp port ok
  refine ⟨?_, ?_, ?_⟩
  · by_cases hc : eng.canStart = true <;>
      simp [ stoa_cef_initialize, hc]
  · simp [ stoa_cef_initialize, EngineInit.canStart]
  · by_cases hc : eng.canStart = true <;>
      simp [ stoa_cef_initialize, hc]

lemma allocate_result {s : BridgeState} (hwf : Wf s) (width height : Int)
    (user_data paint_cb : Nat) :
    (allocateBrowser s width height user_data paint_cb).2
      = some s.nextHandle ∧
    s.nextHandle
      ∈ liveHandles (allocateBrowser s width height user_data paint_cb).1 ∧
    s.nextHandle ∉ liveHandles s ∧
    ∃ b ∈ (allocateBrowser s width height user_data paint_cb).1.browsers,
      b.handle = s.nextHandle ∧ b.width = width ∧ b.height = height ∧
      b.user_data = user_data ∧ b.paint_cb = paint_cb := by
  refine ⟨rfl, ?_, ?_, ?_⟩
  · simp [allocateBrowser, liveHandles]
  · intro hmem
    obtain ⟨b, hb, hbh⟩ := List.mem_map.mp hmem
    have hlt := hwf.1 b hb
    rw [hbh] at hlt
    exact absurd hlt (lt_irrefl _)
  · exact ⟨⟨s.nextHandle, width, height, user_data, paint_cb⟩,
      List.mem_cons_self _ _, rfl, rfl, rfl, rfl, rfl⟩


lemma create_cannot (eng : EngineCreate) (s : BridgeState) (url : String)
    (width height : Int) (parent_view : Nat) (device_scale_factor : Float)
    (user_data paint_cb : Nat)
    (h : engineCannotAllocate eng width height) :
    stoa_cef_browser_create eng s url width height parent_view
      device_scale_factor user_data paint_cb = (s, none) := by
  rcases h with hca | ⟨hdim, hsb⟩
  · simp [stoa_cef_browser_create, hca]
  · simp [stoa_cef_browser_create, hdim, hsb]

lemma create_can_clamp {eng : EngineCreate} (s : BridgeState) (url : String)
    {width height : Int} (parent_view : Nat) (device_scale_factor : Float)
    (user_data paint_cb : Nat) {minW minH : Int}
    (hca : eng.canAllocate = true) (hdim : width ≤ 0 ∨ height ≤ 0)
    (hsb : eng.sizeBehavior = SizeBehavior.clamp minW minH) :
    stoa_cef_browser_create eng s url width height parent_view
        device_scale_factor user_data paint_cb
      = allocateBrowser s (max width minW) (max height minH)
          user_data paint_cb := by
  simp [stoa_cef_browser_create, hca, hdim, hsb]

lemma create_can_good {eng : EngineCreate} (s : BridgeState) (url : String)
    {width height : Int} (parent_view : Nat) (device_scale_factor : Float)
    (user_data paint_cb : Nat)
    (hca : eng.canAllocate = true) (hdim : ¬ (width ≤ 0 ∨ height ≤ 0)) :
    stoa_cef_browser_create eng s url width height parent_view
        device_scale_factor user_data paint_cb
      = allocateBrowser s width height user_data paint_cb := by
  simp [stoa_cef_browser_create, hca, hdim]

/-- C1: stoa_cef_browser_create returns the null-equivalent handle
(`none`) exactly when the engine cannot allocate a browser; otherwise it
returns a (necessarily non-null) handle `some h` that identifies the new
browser instance — `h` is live afterwards, was not live before, and
names the freshly registered instance carrying the given user data and
paint callback.  Failure is reported only through this return value: a
failing call leaves the bridge state unchanged. -/
theorem C1_create_null_iff_allocation_fails
    (eng : EngineCreate) (s : BridgeState) (hwf : Wf s) (url : String)
    (width height : Int) (parent_view : Nat) (device_scale_factor : Float)
    (user_data paint_cb : Nat) :
    ((stoa_cef_browser_create eng s url width height parent_view
        device_scale_factor user_data paint_cb).2 = none
      ↔ engineCannotAllocate eng width height) ∧
    (∀ h : Nat,
      (stoa_cef_browser_create eng s url width height parent_view
          device_scale_factor user_data paint_cb).2 = some h →
      h ∈ liveHandles (stoa_cef_browser_create eng s url width height
          parent_view device_scale_factor user_data paint_cb).1 ∧
      h ∉ liveHandles s ∧
      ∃ b ∈ (stoa_cef_browser_create eng s url width height parent_view
          device_scale_factor user_data paint_cb).1.browsers,
        b.handle = h ∧ b.user_data = user_data ∧ b.paint_cb = paint_cb) ∧
    ((stoa_cef_browser_create eng s url width height parent_view
        device_scale_factor user_data paint_cb).2 = none →
      (stoa_cef_browser_create eng s url width height parent_view
        device_scale_factor user_data paint_cb).1 = s) := by
  rcases Classical.em (engineCannotAllocate eng width height) with hno | hyes
  · rw [create_cannot eng s url width height parent_view
      device_scale_factor user_data paint_cb hno]
    refine ⟨⟨fun _ => hno, fun _ => rfl⟩, ?_, fun _ => rfl⟩
    intro h hsome
    exact absurd hsome (by simp)
  · have hca : eng.canAllocate = true := by
      cases hb : eng.canAllocate with
      | false => exact absurd (Or.inl hb) hyes
      | true => rfl
    by_cases hdim : width ≤ 0 ∨ height ≤ 0
    · rcases hsb : eng.sizeBehavior with _ | ⟨minW, minH⟩
      · exact absurd (Or.inr ⟨hdim, hsb⟩) hyes
      · rw [create_can_clamp s url parent_view device_scale_factor
          user_data paint_cb hca hdim hsb]
        obtain ⟨hres, hlive, hfresh, b, hb, hbh, hbw, hbhh, hbu, hbc⟩ :=
          allocate_result hwf (max width minW) (max height minH)
            user_data paint_cb
        refine ⟨⟨?_, fun hy => absurd hy hyes⟩, ?_, ?_⟩
        · intro hnone
          rw [hres] at hnone
          exact absurd hnone (by simp)
        · intro h hsome
          rw [hres] at hsome
          have hh : h = s.nextHandle := by
            injection hsome with h'
            exact h'.symm
          subst hh
          exact ⟨hlive, hfresh, b, hb, hbh, hbu, hbc⟩
        · intro hnone
          rw [hres] at hnone
          exact absurd hnone (by simp)
    · rw [create_can_good s url parent_view device_scale_factor
        user_data paint_cb hca hdim]
      obtain ⟨hres, hlive, hfresh, b, hb, hbh, hbw, hbhh, hbu, hbc⟩ :=
        allocate_result hwf width height user_data paint_cb
      refine ⟨⟨?_, fun hy => absurd hy hyes⟩, ?_, ?_⟩
      · intro hnone
        rw [hres] at hnone
        exact absurd hnone (by simp)
      · intro h hsome
        rw [hres] at hsome
        have hh : h = s.nextHandle := by
          injection hsome with h'
          exact h'.symm
        subst hh
        exact ⟨hlive, hfresh, b, hb, hbh, hbu, hbc⟩
      · intro hnone
        rw [hres] at hnone
        exact absurd hnone (by simp)

/-- C1 witness: the theorem applied at a concrete input — an engine that
cannot allocate, called on the initial bridge state. -/
theorem C1_create_null_iff_allocation_fails_witness :
    ((stoa_cef_browser_create ⟨false, SizeBehavior.fail⟩ initialState
        "about:blank" 800 600 0 1.0 7 11).2 = none
      ↔ engineCannotAllocate ⟨false, SizeBehavior.fail⟩ 800 600) :=
  (C1_create_null_iff_allocation_fails ⟨false, SizeBehavior.fail⟩
    initialState wf_initial "about:blank" 800 600 0 1.0 7 11).1

/-- C8: a stoa_cef_browser_create call with a zero or negative width or
height either fails gracefully (returns the null-equivalent handle) or
clamps the dimensions to the engine's pinned minimum. -/
theorem C8_nonpositive_size_fails_or_clamps
    (eng : EngineCreate) (s : BridgeState) (url : String)
    (width height : Int) (hbad : width ≤ 0 ∨ height ≤ 0)
    (parent_view : Nat) (device_scale_factor : Float)
    (user_data paint_cb : Nat) :
    (stoa_cef_browser_create eng s url width height parent_view
        device_scale_factor user_data paint_cb).2 = none ∨
    ∃ minW minH, eng.sizeBehavior = SizeBehavior.clamp minW minH ∧
      ∃ b ∈ (stoa_cef_browser_create eng s url width height parent_view
          device_scale_factor user_data paint_cb).1.browsers,
        (stoa_cef_browser_create eng s url width height parent_view
            device_scale_factor user_data paint_cb).2 = some b.handle ∧
        b.width = max width minW ∧ b.height = max height minH ∧
        minW ≤ b.width ∧ minH ≤ b.height := by
  cases hb : eng.canAllocate with
  | false =>
      rw [create_cannot eng s url width height parent_view
        device_scale_factor user_data paint_cb (Or.inl hb)]
      exact Or.inl rfl
  | true =>
    rcases hsb : eng.sizeBehavior with _ | ⟨minW, minH⟩
    · rw [create_cannot eng s url width height parent_view
        device_scale_factor user_data paint_cb (Or.inr ⟨hbad, hsb⟩)]
      exact Or.inl rfl
    · rw [create_can_clamp s url parent_view device_scale_factor
        user_data paint_cb hb hbad hsb]
      refine Or.inr ⟨minW, minH, rfl, ?_⟩
      exact ⟨⟨s.nextHandle, max width minW, max height minH, user_data,
        paint_cb⟩, List.mem_cons_self _ _, rfl, rfl, rfl,
        le_max_right _ _, le_max_right _ _⟩

/-- C8 witness: the theorem applied at a concrete input — a zero width
and a negative height under a clamping engine. -/
theorem C8_nonpositive_size_fails_or_clamps_witness :
    (stoa_cef_browser_create ⟨true, SizeBehavior.clamp 1 1⟩ initialState
        "about:blank" 0 (-5) 0 1.0 7 11).2 = none ∨
    ∃ minW minH,
      (⟨true, SizeBehavior.clamp 1 1⟩ : EngineCreate).sizeBehavior
        = SizeBehavior.clamp minW minH ∧
      ∃ b ∈ (stoa_cef_browser_create ⟨true, SizeBehavior.clamp 1 1⟩
          initialState "about:blank" 0 (-5) 0 1.0 7 11).1.browsers,
        (stoa_cef_browser_create ⟨true, SizeBehavior.clamp 1 1⟩
            initialState "about:blank" 0 (-5) 0 1.0 7 11).2
          = some b.handle ∧
        b.width = max 0 minW ∧ b.height = max (-5) minH ∧
        minW ≤ b.width ∧ minH ≤ b.height :=
  C8_nonpositive_size_fails_or_clamps ⟨true, SizeBehavior.clamp 1 1⟩
    initialState "about:blank" 0 (-5) (by decide) 0 1.0 7 11

/-- A concrete engine that starts successfully, for the example traces. -/
@[reducible] def engInitOk : EngineInit := ⟨true, true⟩

/-- A concrete engine that allocates successfully, for the example
traces. -/
@[reducible] def engCreateOk : EngineCreate := ⟨true, SizeBehavior.fail⟩

/-- A concrete successful `stoa_cef_initialize` call label. -/
@[reducible] def callInit : BridgeCall :=
  .initCall engInitOk 0 [] "fw" "res" "loc" "cache" 0

/-- A concrete successful `stoa_cef_browser_create` call label. -/
@[reducible] def callCreate : BridgeCall :=
  .createCall engCreateOk "about:blank" 800 600 0 1.0 7 11

/-- The bridge state after the example `stoa_cef_initialize` call. -/
@[reducible] def st1 : BridgeState :=
  ( stoa_cef_initialize engInitOk initialState 0 [] "fw" "res" "loc"
    "cache" 0).1

/-- The bridge state after the example `stoa_cef_browser_create` call
(one live browser with handle 1). -/
@[reducible] def st2 : BridgeState :=
  (stoa_cef_browser_create engCreateOk st1 "about:blank" 800 600 0 1.0
    7 11).1

/-- The bridge state after destroying browser 1. -/
@[reducible] def st3 : BridgeState := stoa_cef_browser_destroy st2 1

/-- The bridge state after the final `stoa_cef_shutdown`. -/
@[reducible] def st4 : BridgeState := stoa_cef_shutdown st3

lemma exampleTrace :
    Trace initialState
      [callInit, callCreate, .destroyCall 1, .shutdownCall] st4 := by
  refine Trace.cons (Step.init rfl) ?_
  refine Trace.cons (Step.create rfl) ?_
  refine Trace.cons (Step.destroy (by decide)) ?_
  exact Trace.cons (Step.shutdown rfl (by decide)) Trace.nil

lemma exampleTrace2 : Trace initialState [callInit, callCreate] st2 := by
  refine Trace.cons (Step.init rfl) ?_
  exact Trace.cons (Step.create rfl) Trace.nil

/-- C3: for every browser handle h, once stoa_cef_browser_destroy(h) has
returned, the paint callback registered for h is never invoked again: in
every legal execution from the initial state, no step after the destroy
call is a paint delivery for h. -/
theorem C3_no_paint_after_destroy
    (es : List BridgeCall) (sf : BridgeState)
    (htr : Trace initialState es sf)
    (pre post : List BridgeCall) (h : Nat)
    (hsplit : es = pre ++ BridgeCall.destroyCall h :: post)
    (frame : PaintFrame) :
    BridgeCall.paintEvt h frame ∉ post := by
  subst hsplit
  obtain ⟨s1, s2, htr1, hstep, htr2⟩ := trace_append_split pre post htr
  have hwf1 : Wf s1 := wf_trace htr1 wf_initial
  have hwf2 : Wf s2 := wf_step hstep hwf1
  have hdest : h ∈ s2.destroyedHandles := by
    cases hstep with
    | destroy hmem => exact List.mem_cons_self _ _
  exact no_paint_after_destroyed htr2 hwf2 h hdest frame

/-- C3 witness: the theorem applied to a concrete four-step execution
(successful init, create of browser 1, destroy of browser 1, shutdown):
no paint event for browser 1 occurs after the destroy call. -/
theorem C3_no_paint_after_destroy_witness :
    BridgeCall.paintEvt 1 ⟨800, 600, []⟩
      ∉ ([BridgeCall.shutdownCall] : List BridgeCall) :=
  C3_no_paint_after_destroy
    [callInit, callCreate, BridgeCall.destroyCall 1,
      BridgeCall.shutdownCall]
    st4 exampleTrace [callInit, callCreate] [BridgeCall.shutdownCall] 1
    rfl ⟨800, 600, []⟩

/-- C4: the process lifecycle is ordered — in every legal execution from
the initial state, every stoa_cef_browser_create call is preceded by a
stoa_cef_initialize call, and at every point where stoa_cef_shutdown is
legally invoked the set of live browsers is empty. -/
theorem C4_lifecycle_ordering
    (es : List BridgeCall) (sf : BridgeState)
    (htr : Trace initialState es sf) :
    (∀ (pre rest : List BridgeCall) (eng : EngineCreate) (url : String)
        (width height : Int) (parent_view : Nat)
        (device_scale_factor : Float) (user_data paint_cb : Nat),
      es = pre ++ BridgeCall.createCall eng url width height parent_view
          device_scale_factor user_data paint_cb :: rest →
      ∃ e ∈ pre, isInitCall e) ∧
    (∀ pre rest : List BridgeCall,
      es = pre ++ BridgeCall.shutdownCall :: rest →
      ∃ s1, Trace initialState pre s1 ∧ s1.browsers = [] ∧
        liveHandles s1 = []) := by
  constructor
  · intro pre rest eng url width height pv dsf ud cb hsplit
    subst hsplit
    obtain ⟨s1, s2, htr1, hstep, htr2⟩ := trace_append_split pre rest htr
    have hinit : s1.initialized = true := by
      cases hstep with
      | create h => exact h
    exact init_call_before_engaged htr1 rfl hinit
  · intro pre rest hsplit
    subst hsplit
    obtain ⟨s1, s2, htr1, hstep, htr2⟩ := trace_append_split pre rest htr
    have hempty : s1.browsers = [] := by
      cases hstep with
      | shutdown h1 h2 => exact h2
    refine ⟨s1, htr1, hempty, ?_⟩
    simp [liveHandles, hempty]

/-- C4 witness: the theorem applied to the concrete four-step execution;
the create of browser 1 is preceded by an initialize call. -/
theorem C4_lifecycle_ordering_witness : ∃ e ∈ [callInit], isInitCall e :=
  (C4_lifecycle_ordering
    [callInit, callCreate, BridgeCall.destroyCall 1,
      BridgeCall.shutdownCall]
    st4 exampleTrace).1 [callInit]
    [BridgeCall.destroyCall 1, BridgeCall.shutdownCall] engCreateOk
    "about:blank" 800 600 0 1.0 7 11 rfl

/-- C10: the browser handle is opaque and every operation preserves the
invariant that live handles originated from stoa_cef_browser_create and
have not yet been passed to stoa_cef_browser_destroy: in every state
reachable from the initial state each live handle is in the created set
and not in the destroyed set, and the created set changes only at a
create call. -/
theorem C10_live_handles_created_not_destroyed
    (es : List BridgeCall) (sf : BridgeState)
    (htr : Trace initialState es sf) :
    (∀ h ∈ liveHandles sf, h ∈ sf.created) ∧
    (∀ h ∈ liveHandles sf, h ∉ sf.destroyedHandles) ∧
    (∀ (s1 : BridgeState) (e : BridgeCall) (s2 : BridgeState),
      Step s1 e s2 → s2.created = s1.created ∨ isCreateCall e) := by
  have hwf := wf_trace htr wf_initial
  refine ⟨?_, ?_, ?_⟩
  · intro h hmem
    obtain ⟨b, hb, hbh⟩ := List.mem_map.mp hmem
    rw [← hbh]
    exact hwf.2.2.2 b hb
  · intro h hmem hdest
    exact hwf.2.2.1 h hdest hmem
  · intro s1 e s2 hstep
    cases hstep with
    | @init eng argc argv fp rp lp cp port hinit =>
        left
        by_cases hc : eng.canStart = true <;>
          simp [ stoa_cef_initialize, hc]
    | execProcess => left; rfl
    | shutdown h1 h2 => left; rfl
    | loopWork => left; rfl
    | create hinit => right; trivial
    | destroy hmem => left; rfl
    | resize hmem => left; rfl
    | loadUrl hmem => left; rfl
    | setScale hmem => left; rfl
    | setFocus hmem => left; rfl
    | @key ec browser type modifiers ch uch nkc hmem =>
        left
        by_cases hec : ec = true <;>
          simp [ stoa_cef_browser_send_key_event, hec]
    | @mouseMove ec browser x y modifiers leave hmem =>
        left
        by_cases hec : ec = true <;>
          simp [ stoa_cef_browser_send_mouse_move, hec]
    | @mouseClick ec browser x y modifiers button up cc hmem =>
        left
        by_cases hec : ec = true <;>
          simp [ stoa_cef_browser_send_mouse_click, hec]
    | @mouseWheel ec browser x y modifiers dx dy hmem =>
        left
        by_cases hec : ec = true <;>
          simp [ stoa_cef_browser_send_mouse_wheel, hec]
    | paint hmem => left; rfl

/-- C10 witness: the theorem applied to the concrete two-step execution
(init, create): the live handle 1 is in the created set. -/
theorem C10_live_handles_created_not_destroyed_witness :
    1 ∈ st2.created :=
  (C10_live_handles_created_not_destroyed [callInit, callCreate] st2
    exampleTrace2).1 1 (by decide)
